import Mathlib

/-!
Verification of the event classification, filtering and enrichment pipeline
of the GEO-exploration browser extension.

The definitions below are shallow embeddings of the JavaScript sources:
  - `chrome-extension/scripts/platform-detector.js` (class PlatformDetector),
  - the content-script variants (`chrome-extension/scripts/content.js` and the
    unnamed newer variant, called "v6" here, which differs in the domain
    exclusion predicate and the query-submission capture),
  - the background service-worker variants (the one embedded at the end of
    `content.js`, called the pending-batch uploader, and the older unnamed
    variant, called "v1" here, which clears the buffer at snapshot time).

The DOM, the `URL` constructor and the network are browser builtins, not
repository code; they are abstracted as explicit function parameters:
  - `dom : String → Bool` — whether a CSS selector currently matches a live
    element (`document.querySelector(sel) !== null`),
  - `parse : String → Option String` — `new URL(s).hostname`, `none` when the
    constructor throws,
  - upload outcomes `outcomes : Nat → Bool` — whether the `fetch` of attempt
    `i` returns a 2xx response (`response.ok`); exceptions and non-2xx are
    both `false`, exactly as both end in the `catch` arm of the source.
-/

namespace GEO

/-- JS `String.prototype.includes`: `pat` occurs as a contiguous substring of
`s` (true for the empty pattern, as in JS). -/
def strIncludes (s pat : String) : Bool :=
  s.data.tails.any (fun t => pat.data.isPrefixOf t)

/-- JS `String.prototype.endsWith`. -/
def strEndsWith (s suffix : String) : Bool :=
  suffix.data.isSuffixOf s.data

/-- JS `String.prototype.trim`: strip leading and trailing whitespace. -/
def strTrim (s : String) : String :=
  String.mk (((s.data.dropWhile Char.isWhitespace).reverse.dropWhile Char.isWhitespace).reverse)

/-! ## Platform catalog data model (`config/platforms.json` shape, spec §3/§6)

A platform definition carries substring matchers for the hostname and the URL
and a bundle of CSS-selector lists keyed by role.  `detect` only ever reads
the `aiOverview` role, so the other roles are kept as plain lists as well. -/

/-- The selector bundle of one platform definition (roles from spec §3). -/
structure Selectors where
  queryInput : List String := []
  submitButton : List String := []
  responseContainer : List String := []
  productLinks : List String := []
  addToCart : List String := []
  buyNow : List String := []
  checkout : List String := []
  aiOverview : List String := []
deriving Repr, DecidableEq

/-- One platform definition from the catalog. -/
structure PlatformConfig where
  domains : List String := []
  urlPatterns : List String := []
  selectors : Selectors := {}
deriving Repr, DecidableEq

/-- Platform class: the two top-level catalog sections. -/
inductive PlatformType where
  | ai
  | ecommerce
deriving Repr, DecidableEq

/-- The whole catalog: ordered entries of `ai_platforms` then
`ecommerce_platforms` (JS `Object.entries` preserves insertion order). -/
structure Catalog where
  ai_platforms : List (String × PlatformConfig) := []
  ecommerce_platforms : List (String × PlatformConfig) := []
deriving Repr

/-- The result of a successful classification (`{ platform, type, config }`). -/
structure PlatformMatch where
  platform : String
  ptype : PlatformType
  config : PlatformConfig
deriving Repr, DecidableEq

/-! ## PlatformDetector (platform-detector.js) -/

/-- `findElement(selectors)`: try each selector in order, return the first
that matches a live element.  The selector cache only short-circuits repeated
lookups and throwing selectors are skipped (both folded into `dom`). -/
def findElement (dom : String → Bool) (selectors : List String) : Option String :=
  selectors.find? dom

/-- `matchesPlatform(hostname, url, config)` (platform-detector.js:61-75):
some domain matcher is a substring of the hostname, or some URL pattern is a
substring of the URL. -/
def matchesPlatform (hostname url : String) (config : PlatformConfig) : Bool :=
  if config.domains.length > 0 && config.domains.any (fun domain => strIncludes hostname domain) then
    true
  else if config.urlPatterns.length > 0 && config.urlPatterns.any (fun pattern => strIncludes url pattern) then
    true
  else
    false

/-- The AI loop of `detect` (platform-detector.js:22-38): first match wins,
except that a matching `google_ai` entry is skipped (`continue`) when its
`aiOverview` selector list resolves to no live element. -/
def detectAIList (dom : String → Bool) (url hostname : String) :
    List (String × PlatformConfig) → Option PlatformMatch
  | [] => none
  | (platform, config) :: rest =>
    if matchesPlatform hostname url config then
      if platform = "google_ai" && (findElement dom config.selectors.aiOverview).isNone then
        detectAIList dom url hostname rest
      else
        some ⟨platform, PlatformType.ai, config⟩
    else
      detectAIList dom url hostname rest

/-- The e-commerce loop of `detect` (platform-detector.js:41-49). -/
def detectEcomList (dom : String → Bool) (url hostname : String) :
    List (String × PlatformConfig) → Option PlatformMatch
  | [] => none
  | (platform, config) :: rest =>
    if matchesPlatform hostname url config then
      some ⟨platform, PlatformType.ecommerce, config⟩
    else
      detectEcomList dom url hostname rest

/-- `detect(url, hostname)` (platform-detector.js:18-52).  Note the source
declares exactly these two parameters besides the catalog and the live DOM;
a third argument passed by any caller is silently ignored by JS. -/
def detect (cat : Catalog) (dom : String → Bool) (url hostname : String) : Option PlatformMatch :=
  if url = "" || hostname = "" then
    none
  else
    match detectAIList dom url hostname cat.ai_platforms with
    | some m => some m
    | none => detectEcomList dom url hostname cat.ecommerce_platforms

/-- `isFromAI(referrer)` (platform-detector.js:205-215): `new URL` failures
are caught and yield `false`. -/
def isFromAI (cat : Catalog) (dom : String → Bool) (parse : String → Option String)
    (referrer : String) : Bool :=
  if referrer = "" then
    false
  else
    match parse referrer with
    | none => false
    | some hostname =>
      match detect cat dom referrer hostname with
      | some m => m.ptype = PlatformType.ai
      | none => false

/-- `isAIToEcommerce(referrer, currentUrl)` (platform-detector.js:223-237):
both URLs are parsed inside one try block, then both are classified with the
same `detect` (including its DOM-dependent `google_ai` case). -/
def isAIToEcommerce (cat : Catalog) (dom : String → Bool) (parse : String → Option String)
    (referrer currentUrl : String) : Bool :=
  if referrer = "" || currentUrl = "" then
    false
  else
    match parse referrer, parse currentUrl with
    | some refHostname, some curHostname =>
      (match detect cat dom referrer refHostname with
       | some m => m.ptype = PlatformType.ai
       | none => false)
      &&
      (match detect cat dom currentUrl curHostname with
       | some m => m.ptype = PlatformType.ecommerce
       | none => false)
    | _, _ => false

/-! ## Content script: scroll milestones (content.js:299-320, v6:395-416)

Both content-script variants have the identical handler: a throttled callback
reads the current scroll percentage and, for each configured milestone in
order, emits a `scroll_milestone` event the first time the percentage has
reached it, recording it in the `scrollMilestonesReached` set.  The throttle
only drops intermediate observations, so the handler is modelled on the
sequence of percentages it actually observes. -/

/-- `CAPTURE_CONFIG.scrollMilestones`. -/
def scrollMilestonesConfig : List Nat := [25, 50, 75, 100]

/-- One round of the `forEach` in `checkScrollMilestones`, over an explicit
milestone list: returns the updated `scrollMilestonesReached` set and the
emitted `(milestone, scrollPercentage)` events, in emission order. -/
def checkMilestonesAux (p : Nat) (reached : List Nat) :
    List Nat → List Nat × List (Nat × Nat)
  | [] => (reached, [])
  | m :: rest =>
    if m ≤ p && !(reached.contains m) then
      let r := checkMilestonesAux p (m :: reached) rest
      (r.1, (m, p) :: r.2)
    else
      checkMilestonesAux p reached rest

/-- The body of the throttled `checkScrollMilestones` callback for one
observed scroll percentage `p`. -/
def checkScrollMilestones (reached : List Nat) (p : Nat) : List Nat × List (Nat × Nat) :=
  checkMilestonesAux p reached scrollMilestonesConfig

/-- Run of the scroll handler over a sequence of observed percentages,
starting from a given `scrollMilestonesReached` set. -/
def runScrollAux (reached : List Nat) : List Nat → List (Nat × Nat)
  | [] => []
  | p :: ps =>
    let r := checkScrollMilestones reached p
    r.2 ++ runScrollAux r.1 ps

/-- Run of the scroll handler over one page load: `scrollMilestonesReached`
starts empty (`setupScrollMilestones` clears it). -/
def runScroll (ps : List Nat) : List (Nat × Nat) :=
  runScrollAux [] ps

/-! ## Content script: domain exclusion and event filter -/

/-- `isExcludedDomain(hostname)` of the newer content-script variant
(v6:786-790): exact match or subdomain match against the operator-configured
excluded domains. -/
def isExcludedDomain (excludedDomains : List String) (hostname : String) : Bool :=
  excludedDomains.any (fun domain => hostname = domain || strEndsWith hostname ("." ++ domain))

/-- `isExcludedDomain(hostname)` of the `content.js` variant (content.js:605-
607): substring containment. -/
def isExcludedDomain_v1 (excludedDomains : List String) (hostname : String) : Bool :=
  excludedDomains.any (fun domain => strIncludes hostname domain)

/-- `EVENT_RULES.general` (identical in both variants). -/
def EVENT_RULES_general : List String :=
  ["page_load", "navigation", "click", "input", "form_submit", "scroll_milestone",
   "page_unload", "visibility_change"]

/-- `EVENT_RULES.ai` of the newer variant (v6:27). -/
def EVENT_RULES_ai : List String :=
  ["page_load", "ai_query_submitted", "ai_result_click", "navigation", "click", "input",
   "form_submit", "scroll_milestone", "page_unload", "visibility_change"]

/-- `EVENT_RULES.ai` of the `content.js` variant (content.js:28), which emits
`ai_query_input` instead of `ai_query_submitted`. -/
def EVENT_RULES_ai_v1 : List String :=
  ["page_load", "ai_query_input", "ai_result_click", "navigation", "click", "input",
   "form_submit", "scroll_milestone", "page_unload", "visibility_change"]

/-- `EVENT_RULES.ecommerce` (identical in both variants). -/
def EVENT_RULES_ecommerce : List String :=
  ["page_load", "product_click", "conversion_action", "click", "input", "form_submit",
   "scroll_milestone", "page_unload", "navigation", "visibility_change"]

/-- `EVENT_RULES[currentPlatform?.type || 'general']` of the newer variant:
the platform class of the current match selects the allow-list. -/
def eventRulesFor : Option PlatformMatch → List String
  | some m =>
    match m.ptype with
    | PlatformType.ai => EVENT_RULES_ai
    | PlatformType.ecommerce => EVENT_RULES_ecommerce
  | none => EVENT_RULES_general

/-- Same lookup for the `content.js` variant's rules. -/
def eventRulesFor_v1 : Option PlatformMatch → List String
  | some m =>
    match m.ptype with
    | PlatformType.ai => EVENT_RULES_ai_v1
    | PlatformType.ecommerce => EVENT_RULES_ecommerce
  | none => EVENT_RULES_general

/-- `shouldCaptureEvent(eventType)` of the newer variant (v6:795-808):
excluded domains drop everything first, then the current class's allow-list
decides. -/
def shouldCaptureEvent (excludedDomains : List String) (hostname : String)
    (currentPlatform : Option PlatformMatch) (eventType : String) : Bool :=
  if isExcludedDomain excludedDomains hostname then
    false
  else
    (eventRulesFor currentPlatform).contains eventType

/-- `shouldCaptureEvent(eventType)` of the `content.js` variant
(content.js:612-625). -/
def shouldCaptureEvent_v1 (excludedDomains : List String) (hostname : String)
    (currentPlatform : Option PlatformMatch) (eventType : String) : Bool :=
  if isExcludedDomain_v1 excludedDomains hostname then
    false
  else
    (eventRulesFor_v1 currentPlatform).contains eventType

/-! ## Content script: query submission capture (v6:450-523) -/

/-- An `ai_query_submitted` event as built in `handleQuerySubmit`. -/
structure QueryEvent where
  platform : String
  queryText : String
  queryLength : Nat
deriving Repr, DecidableEq

/-- `handleQuerySubmit` (v6:467-487): read the element's current text, ignore
it when its trimmed form is empty, otherwise emit one `ai_query_submitted`
event carrying the trimmed text and the trimmed text's length. -/
def handleQuerySubmit (platform : String) (text : String) : Option QueryEvent :=
  if strTrim text = "" then
    none
  else
    some { platform := platform, queryText := strTrim text, queryLength := (strTrim text).length }

/-- The deferred call `handleQuerySubmit(element)` with a possibly null
element argument: on `null`, the very first read `element.value` throws a
`TypeError` before any event can be emitted (`Except.error`); on a live
element it behaves as `handleQuerySubmit` on the element's current text. -/
def handleQuerySubmitOn (platform : String) (element : Option String) :
    Except String (List QueryEvent) :=
  match element with
  | none => Except.error "TypeError: cannot read properties of null"
  | some text => Except.ok (handleQuerySubmit platform text).toList

/-- DOM dispatch semantics (browser builtin): `Event.currentTarget` is reset
to null when event dispatch completes, so a `setTimeout` callback scheduled
from inside a listener observes null when it later reads it. -/
def currentTargetAfterDispatch : Option String := none

/-- `handleKeyDown` (v6:490-495): an Enter keydown without Shift schedules
`handleQuerySubmit(e.currentTarget)` in a 10 ms `setTimeout` (v6:493).  By
the time the timer callback runs, dispatch has finished and
`e.currentTarget` is null, so the deferred call throws inside the timer
callback (uncaught — nothing is emitted).  Any other key does nothing.
Returns the list of events the trigger emits. -/
def handleKeyDown (platform : String) (key : String) (shiftKey : Bool) :
    List QueryEvent :=
  if key = "Enter" && !shiftKey then
    match handleQuerySubmitOn platform currentTargetAfterDispatch with
    | Except.ok events => events
    | Except.error _ => []
  else
    []

/-- `handleSubmitClick` (v6:502-504): a click on the submit button schedules
`handleQuerySubmit(queryInput)` — the closure captures the query input
element itself, which stays live, so this path reads the input's current
text and can emit. -/
def handleSubmitClick (platform : String) (text : String) : List QueryEvent :=
  match handleQuerySubmitOn platform (some text) with
  | Except.ok events => events
  | Except.error _ => []

/-! ## Background worker: session state and START_RECORDING

Embedding of the service worker appended to `content.js` (its
`sessionState`, `handleStartRecording` at content.js:873-912) and, where it
differs, the older variant (part_005:81-116).  Buffered events are abstracted
by their identity: the session-level synthetic events keep their fields, the
enriched capture events are opaque tags. -/

/-- An entry of the background `eventBuffer`. -/
inductive BgEvent where
  /-- The synthetic `session_start` record pushed by `handleStartRecording`. -/
  | sessionStart (timestamp : Nat) (sessionId : String) (participantId : String)
  /-- The synthetic `session_end` record pushed by `handleStopRecording`. -/
  | sessionEnd (timestamp : Nat) (sessionId : String) (duration : Nat) (totalEvents : Nat)
  /-- An enriched captured event, abstracted to an opaque identity. -/
  | captured (id : Nat)
deriving Repr, DecidableEq

/-- The worker-global `sessionState` (content.js:724-734), restricted to the
fields `handleStartRecording` touches or the claims mention. -/
structure SessionState where
  isRecording : Bool := false
  sessionId : Option String := none
  participantId : Option String := none
  startTime : Option Nat := none
  eventBuffer : List BgEvent := []
  totalSessionEvents : Nat := 0
deriving Repr, DecidableEq

/-- The response object returned to the popup by `handleStartRecording`. -/
structure StartResult where
  success : Bool
  sessionId : Option String := none
deriving Repr, DecidableEq

/-- `handleStartRecording(data)` (content.js:873-912; part_005:81-116 is the
same minus the counter): unconditionally generates a fresh session id
`session_<now>_<rand>`, overwrites every session field, resets the buffer to
the single synthetic `session_start` event, resets the counter, and returns
`{ success: true, sessionId }`.  Neither variant tests `isRecording` first. -/
def handleStartRecording (st : SessionState) (participantId : String) (now : Nat)
    (rand : String) : SessionState × StartResult :=
  let sid := "session_" ++ toString now ++ "_" ++ rand
  ({ st with
      sessionId := some sid
      participantId := some participantId
      startTime := some now
      isRecording := true
      eventBuffer := [BgEvent.sessionStart now sid participantId]
      totalSessionEvents := 0 },
   { success := true, sessionId := some sid })

/-! ## Background worker: buffered uploader, pending-batch variant
(content.js:1042-1146)

`uploadBufferedData` snapshots the buffer (`dataToUpload = [...eventBuffer]`)
WITHOUT clearing it, registers the snapshot in `uploadInProgress` keyed by a
fresh batch id, and then performs up to `CONFIG.retryAttempts` sequential
`fetch` attempts.  Only a 2xx (`response.ok`) removes the snapshotted events
from the live buffer and the batch from the pending set; exhausted retries
leave both untouched. -/

/-- `CONFIG.retryAttempts` (content.js:718). -/
def retryAttempts : Nat := 3

/-- The uploader-owned state: the live `sessionState.eventBuffer` and the
`uploadInProgress` pending map (batch id to snapshotted events). -/
structure UploaderState where
  eventBuffer : List BgEvent := []
  pending : List (String × List BgEvent) := []
deriving Repr, DecidableEq

/-- One full call of the pending-batch `uploadBufferedData`
(content.js:1042-1146), with the attempt outcomes supplied by `outcomes`
(attempt `i` succeeded iff `outcomes i`).  Returns the new state and the
`success` field of the result.  An empty buffer is a no-op returning success;
otherwise the snapshot is registered as pending, and the buffer is filtered
(`e => !dataToUpload.includes(e)`) only in the `response.ok` branch. -/
def uploadBufferedData (st : UploaderState) (batchId : String) (outcomes : Nat → Bool) :
    UploaderState × Bool :=
  if st.eventBuffer.isEmpty then
    (st, true)
  else
    let dataToUpload := st.eventBuffer
    let stPending : UploaderState :=
      { st with pending := st.pending ++ [(batchId, dataToUpload)] }
    if (List.range retryAttempts).any (fun i => outcomes i) then
      ({ eventBuffer := stPending.eventBuffer.filter (fun e => !(dataToUpload.contains e))
         pending := stPending.pending.filter (fun b => !(b.1 = batchId)) },
       true)
    else
      (stPending, false)

/-- The observable phases of the pending-batch uploader, used to reason about
two flushes interleaving (the `await fetch` suspension points let another
flush or an enqueue run between the snapshot and the acknowledgment):
  - `append e`: `handleEventCaptured` pushes `e` onto the live buffer
    (content.js:975);
  - `startFlush id`: the snapshot phase of `uploadBufferedData`
    (content.js:1047-1058) — registers the entire current buffer as the
    pending batch `id` and sends exactly that payload (no-op on an empty
    buffer);
  - `ackFlush id`: the `response.ok` branch (content.js:1096-1107) — removes
    the batch's events from the live buffer and drops the batch;
  - `failFlush id`: exhausted retries (content.js:1130-1143) — changes
    nothing. -/
inductive UAction where
  | append (e : BgEvent)
  | startFlush (batchId : String)
  | ackFlush (batchId : String)
  | failFlush (batchId : String)
deriving Repr, DecidableEq

/-- One phase step; the second component is the batch payload sent to the
sink by this step, if any. -/
def stepU (st : UploaderState) : UAction → UploaderState × List (String × List BgEvent)
  | UAction.append e => ({ st with eventBuffer := st.eventBuffer ++ [e] }, [])
  | UAction.startFlush batchId =>
    if st.eventBuffer.isEmpty then
      (st, [])
    else
      ({ st with pending := st.pending ++ [(batchId, st.eventBuffer)] },
       [(batchId, st.eventBuffer)])
  | UAction.ackFlush batchId =>
    match st.pending.find? (fun b => b.1 = batchId) with
    | some batch =>
      ({ eventBuffer := st.eventBuffer.filter (fun e => !(batch.2.contains e))
         pending := st.pending.filter (fun b => !(b.1 = batchId)) },
       [])
    | none => (st, [])
  | UAction.failFlush _ => (st, [])

/-- Run a sequence of uploader phases, collecting every batch sent. -/
def runU (st : UploaderState) : List UAction → UploaderState × List (String × List BgEvent)
  | [] => (st, [])
  | a :: rest =>
    let r := stepU st a
    let r2 := runU r.1 rest
    (r2.1, r.2 ++ r2.2)

/-! ## Background worker: legacy uploader variant (part_005:198-251)

The older `uploadBufferedData` clears the live buffer at snapshot time
(`sessionState.eventBuffer = []` right after copying it) and, when all retry
attempts fail, pushes the payload onto the in-memory `uploadQueue` — the
events are no longer in the live buffer afterwards. -/

/-- The older variant's state: live buffer plus the in-memory `uploadQueue`
of failed payloads. -/
structure UploaderStateV1 where
  eventBuffer : List BgEvent := []
  uploadQueue : List (List BgEvent) := []
deriving Repr, DecidableEq

/-- `uploadBufferedData()` of part_005:198-251 with attempt outcomes supplied
by `outcomes`. -/
def uploadBufferedData_v1 (st : UploaderStateV1) (outcomes : Nat → Bool) :
    UploaderStateV1 × Bool :=
  if st.eventBuffer.isEmpty then
    (st, true)
  else
    let dataToUpload := st.eventBuffer
    let stCleared : UploaderStateV1 := { st with eventBuffer := [] }
    if (List.range retryAttempts).any (fun i => outcomes i) then
      (stCleared, true)
    else
      ({ stCleared with uploadQueue := stCleared.uploadQueue ++ [dataToUpload] }, false)

/-! ## Reference formulation of classification, and concrete fixtures -/

/-- Classification as the spec sentence amended by the `google_ai` proviso
reads: the first AI definition, in catalog order, that matches by substring
AND is not a `google_ai` entry whose `aiOverview` marker resolves to no live
element; otherwise the first matching e-commerce definition; otherwise
`none`.  `detect` is proved equal to this formulation. -/
def detectSpec (cat : Catalog) (dom : String → Bool) (url hostname : String) :
    Option PlatformMatch :=
  if url = "" || hostname = "" then
    none
  else
    match cat.ai_platforms.find? (fun pc =>
        matchesPlatform hostname url pc.2
          && !(pc.1 = "google_ai" && (findElement dom pc.2.selectors.aiOverview).isNone)) with
    | some pc => some ⟨pc.1, PlatformType.ai, pc.2⟩
    | none =>
      (cat.ecommerce_platforms.find? (fun pc => matchesPlatform hostname url pc.2)).map
        (fun pc => ⟨pc.1, PlatformType.ecommerce, pc.2⟩)

/-- Test catalog entry in the shape of a `config/platforms.json` AI
definition whose key is `google_ai` (the key `detect` special-cases). -/
def googleCfg : PlatformConfig :=
  { domains := ["google."], selectors := { aiOverview := ["div-ai-overview"] } }

/-- Test catalog entry in the shape of an e-commerce definition. -/
def amazonCfg : PlatformConfig :=
  { domains := ["amazon."] }

/-- Test catalog holding only the DOM-dependent `google_ai` definition. -/
def googleCatalog : Catalog :=
  { ai_platforms := [("google_ai", googleCfg)] }

/-- Test catalog with the `google_ai` AI definition and an `amazon`
e-commerce definition. -/
def journeyCatalog : Catalog :=
  { ai_platforms := [("google_ai", googleCfg)]
    ecommerce_platforms := [("amazon", amazonCfg)] }

/-- A concrete `new URL(·).hostname` table for the two journey URLs. -/
def journeyParse : String → Option String := fun u =>
  if u = "https://www.google.com/search" then some "www.google.com"
  else if u = "https://www.amazon.com/dp/X" then some "www.amazon.com"
  else none

/-- A session state in the middle of a recording, used to probe
`handleStartRecording` while already `Recording`. -/
def recordingFixture : SessionState :=
  { isRecording := true
    sessionId := some "session_1_aaa"
    participantId := some "P001"
    startTime := some 1
    eventBuffer := [BgEvent.sessionStart 1 "session_1_aaa" "P001", BgEvent.captured 7]
    totalSessionEvents := 5 }

/-! # Theorems -/

/-- C10: empty or unparseable referrer/current URLs make `isFromAI` and
`isAIToEcommerce` return `false` instead of throwing, and `detect` returns
`null` on an empty URL or hostname. -/
theorem C10_unparseable_inputs_safe (cat : Catalog) (dom : String → Bool)
    (parse : String → Option String) (referrer currentUrl url hostname : String) :
    ((referrer = "" ∨ parse referrer = none) → isFromAI cat dom parse referrer = false) ∧
    ((referrer = "" ∨ currentUrl = "" ∨ parse referrer = none ∨ parse currentUrl = none) →
      isAIToEcommerce cat dom parse referrer currentUrl = false) ∧
    ((url = "" ∨ hostname = "") → detect cat dom url hostname = none) := by
  refine ⟨?_, ?_, ?_⟩
  · rintro (h | h)
    · simp [isFromAI, h]
    · by_cases hr : referrer = "" <;> simp [isFromAI, hr, h]
  · rintro (h | h | h | h)
    · simp [isAIToEcommerce, h]
    · simp [isAIToEcommerce, h]
    · by_cases hr : referrer = "" <;> by_cases hc : currentUrl = "" <;>
        simp [isAIToEcommerce, hr, hc, h]
    · by_cases hr : referrer = "" <;> by_cases hc : currentUrl = "" <;>
        cases hp : parse referrer <;> simp [isAIToEcommerce, hr, hc, h, hp]
  · rintro (h | h) <;> simp [detect, h]

/-- Witness for C10 at concrete inputs. -/
theorem C10_witness :
    (("not a url" : String) = "" ∨ (fun _ : String => (none : Option String)) "not a url" = none) ∧
    isFromAI {} (fun _ => false) (fun _ => none) "not a url" = false ∧
    isAIToEcommerce {} (fun _ => false) (fun _ => none) "not a url" "https://a.example/" = false ∧
    detect {} (fun _ => false) "" "www.example.com" = none :=
  ⟨Or.inr rfl,
   (C10_unparseable_inputs_safe {} (fun _ => false) (fun _ => none) "not a url"
      "https://a.example/" "" "www.example.com").1 (Or.inr rfl),
   (C10_unparseable_inputs_safe {} (fun _ => false) (fun _ => none) "not a url"
      "https://a.example/" "" "www.example.com").2.1 (Or.inr (Or.inr (Or.inl rfl))),
   (C10_unparseable_inputs_safe {} (fun _ => false) (fun _ => none) "not a url"
      "https://a.example/" "" "www.example.com").2.2 (Or.inl rfl)⟩

/-- C4: when the hostname is not excluded, an event kind survives
`shouldCaptureEvent` if and only if it belongs to the current platform
class's allow-list, in both content-script variants. -/
theorem C4_allowlist_iff (excludedDomains : List String) (hostname : String)
    (currentPlatform : Option PlatformMatch) (eventType : String)
    (h : isExcludedDomain excludedDomains hostname = false)
    (h1 : isExcludedDomain_v1 excludedDomains hostname = false) :
    (shouldCaptureEvent excludedDomains hostname currentPlatform eventType = true ↔
      eventType ∈ eventRulesFor currentPlatform) ∧
    (shouldCaptureEvent_v1 excludedDomains hostname currentPlatform eventType = true ↔
      eventType ∈ eventRulesFor_v1 currentPlatform) := by
  constructor
  · simp [shouldCaptureEvent, h, List.contains, List.elem_iff]
  · simp [shouldCaptureEvent_v1, h1, List.contains, List.elem_iff]

/-- Witness for C4 on a non-excluded hostname: `page_load` passes in the
general class, `ai_query_submitted` does not. -/
theorem C4_witness :
    isExcludedDomain ["tracker.example"] "www.wikipedia.org" = false ∧
    isExcludedDomain_v1 ["tracker.example"] "www.wikipedia.org" = false ∧
    (shouldCaptureEvent ["tracker.example"] "www.wikipedia.org" none "page_load" = true ↔
      "page_load" ∈ eventRulesFor none) :=
  ⟨by decide, by rfl,
   (C4_allowlist_iff ["tracker.example"] "www.wikipedia.org" none "page_load"
      (by decide) (by rfl)).1⟩

/-- C5 counterexample: with excluded domain `example.com`, the `content.js`
variant drops events on hostname `notexample.com`, which is neither equal to
`example.com` nor one of its subdomains — exclusion there is substring
containment, not exact-or-subdomain matching. -/
theorem C5_counterexample :
    isExcludedDomain_v1 ["example.com"] "notexample.com" = true ∧
    shouldCaptureEvent_v1 ["example.com"] "notexample.com" none "page_load" = false ∧
    ("notexample.com" : String) ≠ "example.com" ∧
    strEndsWith "notexample.com" ("." ++ "example.com") = false := by
  refine ⟨by rfl, by rfl, by decide, by rfl⟩

/-- C5 amended: the newer variant's exclusion is exact-or-subdomain as
claimed; the `content.js` variant's is substring containment (strictly more
permissive dropping); in both, a hostname match drops the event
unconditionally, before any allow-list decision. -/
theorem C5_amended (excludedDomains : List String) (hostname : String)
    (currentPlatform : Option PlatformMatch) (eventType : String) :
    (isExcludedDomain excludedDomains hostname = true ↔
      ∃ domain ∈ excludedDomains,
        hostname = domain ∨ strEndsWith hostname ("." ++ domain) = true) ∧
    (isExcludedDomain_v1 excludedDomains hostname = true ↔
      ∃ domain ∈ excludedDomains, strIncludes hostname domain = true) ∧
    (isExcludedDomain excludedDomains hostname = true →
      shouldCaptureEvent excludedDomains hostname currentPlatform eventType = false) ∧
    (isExcludedDomain_v1 excludedDomains hostname = true →
      shouldCaptureEvent_v1 excludedDomains hostname currentPlatform eventType = false) := by
  refine ⟨?_, ?_, ?_, ?_⟩
  · simp [isExcludedDomain, List.any_eq_true]
  · simp [isExcludedDomain_v1, List.any_eq_true]
  · intro h; simp [shouldCaptureEvent, h]
  · intro h; simp [shouldCaptureEvent_v1, h]

/-- Witness for C5 at a concrete subdomain: `www.shop.test` is dropped for
excluded domain `shop.test` regardless of the event kind. -/
theorem C5_witness :
    isExcludedDomain ["shop.test"] "www.shop.test" = true ∧
    shouldCaptureEvent ["shop.test"] "www.shop.test" none "page_load" = false ∧
    isExcludedDomain_v1 ["shop.test"] "www.shop.test" = true ∧
    shouldCaptureEvent_v1 ["shop.test"] "www.shop.test" none "page_load" = false :=
  ⟨by rfl,
   (C5_amended ["shop.test"] "www.shop.test" none "page_load").2.2.1 (by rfl),
   by rfl,
   (C5_amended ["shop.test"] "www.shop.test" none "page_load").2.2.2 (by rfl)⟩

/-- C7: evaluating the embedded `isAIToEcommerce` at the failing input — an
AI-overlay Google search referrer and an Amazon current URL — the transition
flag is `true` when the CURRENT page's DOM has the `aiOverview` marker and
`false` when it does not, with every other argument identical: the referrer's
classification does depend on the current page's DOM, because `detect`
declares no third parameter and silently ignores the `skipDOMCheck` flag its
caller passes. -/
theorem C7_referrer_depends_on_dom :
    isAIToEcommerce journeyCatalog (fun s => s == "div-ai-overview") journeyParse
      "https://www.google.com/search" "https://www.amazon.com/dp/X" = true ∧
    isAIToEcommerce journeyCatalog (fun _ => false) journeyParse
      "https://www.google.com/search" "https://www.amazon.com/dp/X" = false :=
  ⟨by rfl, by rfl⟩

/-- C8 counterexample: with a session already `Recording`
(`recordingFixture`), `handleStartRecording` returns success (the claim says
it fails) and replaces the session — new `sessionId`, reset buffer and
counter (the claim says the existing state is left unchanged). -/
theorem C8_counterexample :
    recordingFixture.isRecording = true ∧
    (handleStartRecording recordingFixture "P002" 10 "bbb").2.success = true ∧
    (handleStartRecording recordingFixture "P002" 10 "bbb").1.sessionId =
      some "session_10_bbb" ∧
    (handleStartRecording recordingFixture "P002" 10 "bbb").1.sessionId ≠
      recordingFixture.sessionId ∧
    (handleStartRecording recordingFixture "P002" 10 "bbb").1.eventBuffer =
      [BgEvent.sessionStart 10 "session_10_bbb" "P002"] ∧
    (handleStartRecording recordingFixture "P002" 10 "bbb").1 ≠ recordingFixture := by
  refine ⟨rfl, rfl, by rfl, by decide, by rfl, by decide⟩

/-- C8 amended: `handleStartRecording` never fails, whatever the current
state (including an already-`Recording` one): it succeeds, overwrites
`sessionId`, `participantId` and `startTime`, resets the buffer to a single
fresh `session_start` event and zeroes the counter. -/
theorem C8_amended (st : SessionState) (participantId : String) (now : Nat) (rand : String) :
    (handleStartRecording st participantId now rand).2.success = true ∧
    (handleStartRecording st participantId now rand).1.isRecording = true ∧
    (handleStartRecording st participantId now rand).1.sessionId =
      some ("session_" ++ toString now ++ "_" ++ rand) ∧
    (handleStartRecording st participantId now rand).1.participantId = some participantId ∧
    (handleStartRecording st participantId now rand).1.startTime = some now ∧
    (handleStartRecording st participantId now rand).1.eventBuffer =
      [BgEvent.sessionStart now ("session_" ++ toString now ++ "_" ++ rand) participantId] ∧
    (handleStartRecording st participantId now rand).1.totalSessionEvents = 0 ∧
    (handleStartRecording st participantId now rand).2.sessionId =
      (handleStartRecording st participantId now rand).1.sessionId :=
  ⟨rfl, rfl, rfl, rfl, rfl, rfl, rfl, rfl⟩

/-- C9 counterexample: submitting the text `"best running shoes"` emits an
`ai_query_submitted` event with `queryLength = 18` (the string has 18
characters), not 19 as claimed. -/
theorem C9_counterexample :
    handleQuerySubmit "chatgpt" "best running shoes" =
      some { platform := "chatgpt", queryText := "best running shoes", queryLength := 18 } ∧
    ¬((handleQuerySubmit "chatgpt" "best running shoes").map QueryEvent.queryLength =
        some 19) := by
  refine ⟨by rfl, by decide⟩

/-- C9 amended: the Enter-without-Shift trigger never emits an
`ai_query_submitted` event — its deferred callback reads `e.currentTarget`
inside a 10 ms `setTimeout`, where the DOM has reset it to null after
dispatch, so `handleQuerySubmit` throws before emitting; only the
submit-button trigger (whose closure captures the query input element
itself) emits: exactly one `ai_query_submitted` event carrying the trimmed
text and the trimmed text's length when the trimmed text is non-empty,
nothing when it is empty or whitespace-only; submitting
`"best running shoes"` via the button yields `queryLength = 18`. -/
theorem C9_amended (platform key text : String) (shiftKey : Bool) :
    handleKeyDown platform key shiftKey = [] ∧
    handleQuerySubmitOn platform currentTargetAfterDispatch =
      Except.error "TypeError: cannot read properties of null" ∧
    (strTrim text ≠ "" →
      handleSubmitClick platform text =
        [{ platform := platform, queryText := strTrim text,
           queryLength := (strTrim text).length }]) ∧
    (strTrim text = "" → handleSubmitClick platform text = []) ∧
    handleSubmitClick "chatgpt" "best running shoes" =
      [{ platform := "chatgpt", queryText := "best running shoes", queryLength := 18 }] := by
  refine ⟨?_, rfl, ?_, ?_, by rfl⟩
  · unfold handleKeyDown
    split <;> rfl
  · intro ht
    simp [handleSubmitClick, handleQuerySubmitOn, handleQuerySubmit, ht]
  · intro ht
    simp [handleSubmitClick, handleQuerySubmitOn, handleQuerySubmit, ht]

/-- Witness for C9 at the concrete submission `"best running shoes"`: the
button path emits the one event with `queryLength = 18`; the Enter path
emits nothing. -/
theorem C9_witness :
    strTrim "best running shoes" ≠ "" ∧
    handleSubmitClick "chatgpt" "best running shoes" =
      [{ platform := "chatgpt", queryText := "best running shoes", queryLength := 18 }] ∧
    handleKeyDown "chatgpt" "Enter" false = [] :=
  ⟨by decide,
   by
    have h :=
      (C9_amended "chatgpt" "Enter" "best running shoes" false).2.2.1 (by decide)
    simpa using h,
   (C9_amended "chatgpt" "Enter" "best running shoes" false).1⟩

/-- C1 counterexample: in the legacy uploader (part_005), a flush whose
retry attempts all fail leaves the live buffer EMPTY — the snapshotted event
is moved to the in-memory `uploadQueue`, not kept in the buffer — so it is
not eligible for the next scheduled flush of the buffer. -/
theorem C1_counterexample :
    (uploadBufferedData_v1 { eventBuffer := [BgEvent.captured 0] } (fun _ => false)).2 =
      false ∧
    (uploadBufferedData_v1 { eventBuffer := [BgEvent.captured 0] } (fun _ => false)).1.eventBuffer =
      [] ∧
    BgEvent.captured 0 ∉
      (uploadBufferedData_v1 { eventBuffer := [BgEvent.captured 0] } (fun _ => false)).1.eventBuffer ∧
    (uploadBufferedData_v1 { eventBuffer := [BgEvent.captured 0] } (fun _ => false)).1.uploadQueue =
      [[BgEvent.captured 0]] := by
  refine ⟨rfl, rfl, by decide, rfl⟩

/-- C1 amended (holds for the pending-batch uploader of `content.js`): when
every one of the bounded retry attempts fails, the flush leaves the live
buffer exactly as it was — every snapshotted event is still there, eligible
for the next flush — and an event can disappear from the live buffer only
when some attempt returned 2xx. -/
theorem C1_amended (st : UploaderState) (batchId : String) (outcomes : Nat → Bool) :
    ((List.range retryAttempts).any (fun i => outcomes i) = false →
      (uploadBufferedData st batchId outcomes).1.eventBuffer = st.eventBuffer) ∧
    (∀ e ∈ st.eventBuffer,
      e ∉ (uploadBufferedData st batchId outcomes).1.eventBuffer →
        (List.range retryAttempts).any (fun i => outcomes i) = true) := by
  by_cases hemp : st.eventBuffer.isEmpty
  · constructor
    · intro _; simp [uploadBufferedData, hemp]
    · intro e he hne
      exact absurd (by simpa [uploadBufferedData, hemp] using he) hne
  · by_cases hok : (List.range retryAttempts).any (fun i => outcomes i) = true
    · constructor
      · intro h; rw [h] at hok; exact absurd hok (by simp)
      · intro _ _ _; exact hok
    · have hfail : (List.range retryAttempts).any (fun i => outcomes i) = false := by
        simpa using hok
      constructor
      · intro _; simp [uploadBufferedData, hemp, hfail]
      · intro e he hne
        exact absurd (by simpa [uploadBufferedData, hemp, hfail] using he) hne

/-- Witness for C1 on a one-event buffer whose flush attempts all fail. -/
theorem C1_witness :
    (List.range retryAttempts).any (fun i => (fun _ : Nat => false) i) = false ∧
    (uploadBufferedData { eventBuffer := [BgEvent.captured 0] } "b1"
        (fun _ => false)).1.eventBuffer = [BgEvent.captured 0] :=
  ⟨rfl,
   (C1_amended { eventBuffer := [BgEvent.captured 0] } "b1" (fun _ => false)).1 rfl⟩

/-- C2 counterexample: buffer gets event 0, a first flush snapshots it
(batch `b1`), event 1 arrives while `b1` is still pending, and a second
flush fires: the second batch is the ENTIRE buffer `[0, 1]`, not just the
events appended after the first snapshot, and event 0 appears in two
different sent batches. -/
theorem C2_counterexample :
    (runU {} [UAction.append (BgEvent.captured 0), UAction.startFlush "b1",
              UAction.append (BgEvent.captured 1), UAction.startFlush "b2"]).2 =
      [("b1", [BgEvent.captured 0]),
       ("b2", [BgEvent.captured 0, BgEvent.captured 1])] ∧
    ((runU {} [UAction.append (BgEvent.captured 0), UAction.startFlush "b1",
               UAction.append (BgEvent.captured 1), UAction.startFlush "b2"]).2.countP
        (fun b => b.2.contains (BgEvent.captured 0))) = 2 := by
  refine ⟨by rfl, by rfl⟩

/-- C2 amended: a flush triggered while an earlier batch is pending
snapshots the ENTIRE current live buffer — including the events of the
still-pending earlier batch, which therefore appear in both batches
(at-least-once delivery, not disjoint batching); every event in the live
buffer at snapshot time is covered by the sent batch. -/
theorem C2_amended (st : UploaderState) (batchId : String) (h : st.eventBuffer ≠ []) :
    (stepU st (UAction.startFlush batchId)).2 = [(batchId, st.eventBuffer)] ∧
    (∀ e ∈ st.eventBuffer, ∃ b ∈ (stepU st (UAction.startFlush batchId)).2, e ∈ b.2) ∧
    (∀ b ∈ st.pending, ∀ e ∈ b.2, e ∈ st.eventBuffer →
      ∃ b2 ∈ (stepU st (UAction.startFlush batchId)).2, e ∈ b2.2) := by
  have hemp : st.eventBuffer.isEmpty = false := by
    cases hb : st.eventBuffer with
    | nil => exact absurd hb h
    | cons x xs => rfl
  refine ⟨by simp [stepU, hemp], ?_, ?_⟩
  · intro e he
    exact ⟨(batchId, st.eventBuffer), by simp [stepU, hemp], he⟩
  · intro b _ e _ he
    exact ⟨(batchId, st.eventBuffer), by simp [stepU, hemp], he⟩

/-- Witness for C2: a buffer `[0, 1]` with batch `b1 = [0]` still pending;
the next flush sends the whole buffer as `b2`. -/
theorem C2_witness :
    ({ eventBuffer := [BgEvent.captured 0, BgEvent.captured 1],
       pending := [("b1", [BgEvent.captured 0])] } : UploaderState).eventBuffer ≠ [] ∧
    (stepU { eventBuffer := [BgEvent.captured 0, BgEvent.captured 1],
             pending := [("b1", [BgEvent.captured 0])] }
        (UAction.startFlush "b2")).2 =
      [("b2", [BgEvent.captured 0, BgEvent.captured 1])] :=
  ⟨by decide,
   (C2_amended { eventBuffer := [BgEvent.captured 0, BgEvent.captured 1],
                 pending := [("b1", [BgEvent.captured 0])] } "b2" (by decide)).1⟩

/-- The AI loop of `detect` equals a `find?` over the catalog with the
`google_ai`-proviso predicate. -/
theorem detectAIList_eq_find (dom : String → Bool) (url hostname : String)
    (l : List (String × PlatformConfig)) :
    detectAIList dom url hostname l =
      (l.find? (fun pc =>
          matchesPlatform hostname url pc.2
            && !(pc.1 = "google_ai" && (findElement dom pc.2.selectors.aiOverview).isNone))).map
        (fun pc => ⟨pc.1, PlatformType.ai, pc.2⟩) := by
  induction l with
  | nil => rfl
  | cons hd tl ih =>
    obtain ⟨n, c⟩ := hd
    cases hm : matchesPlatform hostname url c with
    | false =>
      have hstep : detectAIList dom url hostname ((n, c) :: tl) =
          detectAIList dom url hostname tl := by
        simp only [detectAIList]
        rw [if_neg (by simp [hm])]
      have hp : ¬((matchesPlatform hostname url c
          && !(decide (n = "google_ai")
              && (findElement dom c.selectors.aiOverview).isNone)) = true) := by
        rw [hm]; simp
      rw [hstep,
        @List.find?_cons_of_neg _
          (fun pc => matchesPlatform hostname url pc.2
            && !(decide (pc.1 = "google_ai")
                && (findElement dom pc.2.selectors.aiOverview).isNone)) (n, c) tl hp]
      exact ih
    | true =>
      cases hg : decide (n = "google_ai") && (findElement dom c.selectors.aiOverview).isNone with
      | true =>
        have hstep : detectAIList dom url hostname ((n, c) :: tl) =
            detectAIList dom url hostname tl := by
          simp only [detectAIList]
          rw [if_pos hm, if_pos hg]
        have hp : ¬((matchesPlatform hostname url c
            && !(decide (n = "google_ai")
                && (findElement dom c.selectors.aiOverview).isNone)) = true) := by
          rw [hm, hg]; simp
        rw [hstep,
          @List.find?_cons_of_neg _
            (fun pc => matchesPlatform hostname url pc.2
              && !(decide (pc.1 = "google_ai")
                  && (findElement dom pc.2.selectors.aiOverview).isNone)) (n, c) tl hp]
        exact ih
      | false =>
        have hstep : detectAIList dom url hostname ((n, c) :: tl) =
            some ⟨n, PlatformType.ai, c⟩ := by
          simp only [detectAIList]
          rw [if_pos hm, if_neg (by simp [hg])]
        have hp : (matchesPlatform hostname url c
            && !(decide (n = "google_ai")
                && (findElement dom c.selectors.aiOverview).isNone)) = true := by
          rw [hm, hg]; simp
        rw [hstep,
          @List.find?_cons_of_pos _
            (fun pc => matchesPlatform hostname url pc.2
              && !(decide (pc.1 = "google_ai")
                  && (findElement dom pc.2.selectors.aiOverview).isNone)) (n, c) tl hp]
        rfl

/-- The e-commerce loop of `detect` equals a `find?` over the catalog. -/
theorem detectEcomList_eq_find (dom : String → Bool) (url hostname : String)
    (l : List (String × PlatformConfig)) :
    detectEcomList dom url hostname l =
      (l.find? (fun pc => matchesPlatform hostname url pc.2)).map
        (fun pc => ⟨pc.1, PlatformType.ecommerce, pc.2⟩) := by
  induction l with
  | nil => rfl
  | cons hd tl ih =>
    obtain ⟨n, c⟩ := hd
    cases hm : matchesPlatform hostname url c with
    | true =>
      have hstep : detectEcomList dom url hostname ((n, c) :: tl) =
          some ⟨n, PlatformType.ecommerce, c⟩ := by
        simp only [detectEcomList]
        rw [if_pos hm]
      rw [hstep,
        @List.find?_cons_of_pos _
          (fun pc => matchesPlatform hostname url pc.2) (n, c) tl hm]
      rfl
    | false =>
      have hstep : detectEcomList dom url hostname ((n, c) :: tl) =
          detectEcomList dom url hostname tl := by
        simp only [detectEcomList]
        rw [if_neg (by simp [hm])]
      rw [hstep,
        @List.find?_cons_of_neg _
          (fun pc => matchesPlatform hostname url pc.2) (n, c) tl (by simp [hm])]
      exact ih

/-- `matchesPlatform` ignores its redundant emptiness guards: it is the
disjunction of the two substring `any`-scans. -/
theorem matchesPlatform_eq_or (hostname url : String) (c : PlatformConfig) :
    matchesPlatform hostname url c =
      (c.domains.any (fun d => strIncludes hostname d)
        || c.urlPatterns.any (fun p => strIncludes url p)) := by
  unfold matchesPlatform
  cases hd : c.domains.any (fun d => strIncludes hostname d) with
  | true =>
    have hlen : 0 < c.domains.length := by
      obtain ⟨x, hx, _⟩ := List.any_eq_true.mp hd
      exact List.length_pos.mpr (List.ne_nil_of_mem hx)
    simp [hd, hlen]
  | false =>
    cases hu : c.urlPatterns.any (fun p => strIncludes url p) with
    | true =>
      have hlen : 0 < c.urlPatterns.length := by
        obtain ⟨x, hx, _⟩ := List.any_eq_true.mp hu
        exact List.length_pos.mpr (List.ne_nil_of_mem hx)
      simp [hd, hu, hlen]
    | false =>
      simp [hd, hu]

/-- C6 counterexample: in a catalog whose first (and only) AI definition is
keyed `google_ai`, that definition matches the hostname `www.google.com` by
substring, yet `detect` returns `none` when the `aiOverview` marker resolves
to no live element — the result is NOT the first matching definition's
identity, because of the DOM-dependent special case the claim omits. -/
theorem C6_counterexample :
    matchesPlatform "www.google.com" "https://www.google.com/search" googleCfg = true ∧
    googleCatalog.ai_platforms = [("google_ai", googleCfg)] ∧
    detect googleCatalog (fun _ => false) "https://www.google.com/search" "www.google.com" =
      none ∧
    detect googleCatalog (fun _ => false) "https://www.google.com/search" "www.google.com" ≠
      some ⟨"google_ai", PlatformType.ai, googleCfg⟩ := by
  refine ⟨by rfl, rfl, by rfl, by decide⟩

/-- C6 amended: classification scans AI definitions in catalog order and
then e-commerce definitions; a definition matches iff some domain matcher is
a substring of the hostname or some URL pattern is a substring of the URL;
the result is the first matching definition — EXCEPT that a matching AI
definition keyed `google_ai` is skipped when its `aiOverview` marker
resolves to no live element — and `none` when no definition qualifies
(`detect = detectSpec`). -/
theorem C6_amended (cat : Catalog) (dom : String → Bool) (url hostname : String) :
    detect cat dom url hostname = detectSpec cat dom url hostname ∧
    (∀ c : PlatformConfig, matchesPlatform hostname url c = true ↔
      (∃ d ∈ c.domains, strIncludes hostname d = true) ∨
      (∃ p ∈ c.urlPatterns, strIncludes url p = true)) := by
  constructor
  · by_cases he : (url = "" || hostname = "") = true
    · simp [detect, detectSpec, he]
    · rw [detect, detectSpec, if_neg he, if_neg he,
        detectAIList_eq_find, detectEcomList_eq_find]
      cases hf : cat.ai_platforms.find? (fun pc =>
          matchesPlatform hostname url pc.2
            && !(pc.1 = "google_ai" && (findElement dom pc.2.selectors.aiOverview).isNone)) with
      | none => simp
      | some pc => simp
  · intro c
    rw [matchesPlatform_eq_or]
    simp [List.any_eq_true]

/-- Every event emitted by one scroll check carries the observed percentage,
is for a milestone the percentage has reached, for a milestone not already
in the reached set, and for a milestone of the configured list. -/
theorem checkMilestonesAux_emit (p : Nat) (reached ms : List Nat) :
    ∀ e ∈ (checkMilestonesAux p reached ms).2,
      e.2 = p ∧ e.1 ≤ p ∧ e.1 ∉ reached ∧ e.1 ∈ ms := by
  induction ms generalizing reached with
  | nil => intro e he; simp [checkMilestonesAux] at he
  | cons m rest ih =>
    intro e he
    by_cases hc : (m ≤ p && !(reached.contains m)) = true
    · simp only [checkMilestonesAux, if_pos hc] at he
      rcases List.mem_cons.mp he with he | he
      · subst he
        obtain ⟨h1, h2⟩ := Bool.and_eq_true_iff.mp hc
        refine ⟨rfl, by simpa using h1, ?_, List.mem_cons_self _ _⟩
        intro hmem
        have h2' : ¬(m ∈ reached) := by simpa using h2
        exact h2' hmem
      · obtain ⟨h1, h2, h3, h4⟩ := ih (m :: reached) e he
        exact ⟨h1, h2, fun hr => h3 (List.mem_cons_of_mem _ hr), List.mem_cons_of_mem _ h4⟩
    · simp only [checkMilestonesAux, if_neg hc] at he
      obtain ⟨h1, h2, h3, h4⟩ := ih reached e he
      exact ⟨h1, h2, h3, List.mem_cons_of_mem _ h4⟩

/-- The reached set only ever grows during a scroll check. -/
theorem checkMilestonesAux_reached_sub (p : Nat) (reached ms : List Nat) :
    reached ⊆ (checkMilestonesAux p reached ms).1 := by
  induction ms generalizing reached with
  | nil => intro x hx; simpa [checkMilestonesAux] using hx
  | cons m rest ih =>
    intro x hx
    by_cases hc : (m ≤ p && !(reached.contains m)) = true
    · simp only [checkMilestonesAux, if_pos hc]
      exact ih (m :: reached) (List.mem_cons_of_mem _ hx)
    · simp only [checkMilestonesAux, if_neg hc]
      exact ih reached hx

/-- Every milestone emitted by a scroll check ends up in the reached set the
check returns. -/
theorem checkMilestonesAux_emit_reached (p : Nat) (reached ms : List Nat) :
    ∀ e ∈ (checkMilestonesAux p reached ms).2, e.1 ∈ (checkMilestonesAux p reached ms).1 := by
  induction ms generalizing reached with
  | nil => intro e he; simp [checkMilestonesAux] at he
  | cons m rest ih =>
    intro e he
    by_cases hc : (m ≤ p && !(reached.contains m)) = true
    · simp only [checkMilestonesAux, if_pos hc] at he ⊢
      rcases List.mem_cons.mp he with he | he
      · subst he
        exact checkMilestonesAux_reached_sub p (m :: reached) rest (List.mem_cons_self _ _)
      · exact ih (m :: reached) e he
    · simp only [checkMilestonesAux, if_neg hc] at he ⊢
      exact ih reached e he

/-- Within one scroll check, no milestone is emitted twice. -/
theorem checkMilestonesAux_pairwise (p : Nat) (reached ms : List Nat) :
    ((checkMilestonesAux p reached ms).2).Pairwise (fun a b => a.1 ≠ b.1) := by
  induction ms generalizing reached with
  | nil => simp [checkMilestonesAux]
  | cons m rest ih =>
    by_cases hc : (m ≤ p && !(reached.contains m)) = true
    · simp only [checkMilestonesAux, if_pos hc]
      refine List.pairwise_cons.mpr ⟨?_, ih (m :: reached)⟩
      intro b hb
      have h3 := (checkMilestonesAux_emit p (m :: reached) rest b hb).2.2.1
      intro hEq
      exact h3 (by rw [← hEq]; exact List.mem_cons_self _ _)
    · simp only [checkMilestonesAux, if_neg hc]
      exact ih reached

/-- Across a run, every emission is at a percentage that has reached its
milestone, and never for a milestone already in the starting reached set. -/
theorem runScrollAux_emit (reached ps : List Nat) :
    ∀ e ∈ runScrollAux reached ps, e.1 ≤ e.2 ∧ e.1 ∉ reached := by
  induction ps generalizing reached with
  | nil => intro e he; simp [runScrollAux] at he
  | cons p ps ih =>
    intro e he
    simp only [runScrollAux] at he
    rcases List.mem_append.mp he with he | he
    · obtain ⟨h1, h2, h3, _⟩ := checkMilestonesAux_emit p reached scrollMilestonesConfig e he
      exact ⟨by rw [h1]; exact h2, h3⟩
    · obtain ⟨h1, h2⟩ := ih (checkScrollMilestones reached p).1 e he
      exact ⟨h1, fun hr => h2 (checkMilestonesAux_reached_sub p reached scrollMilestonesConfig hr)⟩

/-- Across a run, no milestone is emitted twice. -/
theorem runScrollAux_pairwise (reached ps : List Nat) :
    (runScrollAux reached ps).Pairwise (fun a b => a.1 ≠ b.1) := by
  induction ps generalizing reached with
  | nil => simp [runScrollAux]
  | cons p ps ih =>
    simp only [runScrollAux]
    rw [List.pairwise_append]
    refine ⟨checkMilestonesAux_pairwise p reached scrollMilestonesConfig, ih _, ?_⟩
    intro a ha b hb
    have haR := checkMilestonesAux_emit_reached p reached scrollMilestonesConfig a ha
    have hbN := (runScrollAux_emit (checkScrollMilestones reached p).1 ps b hb).2
    intro hEq
    rw [hEq] at haR
    exact hbN haR

/-- A list whose first components are pairwise distinct has at most one entry
with any given first component. -/
theorem pairwise_fst_filter_le (l : List (Nat × Nat))
    (h : l.Pairwise (fun a b => a.1 ≠ b.1)) (m : Nat) :
    (l.filter (fun e => e.1 = m)).length ≤ 1 := by
  induction l with
  | nil => simp
  | cons a t ih =>
    obtain ⟨h1, h2⟩ := List.pairwise_cons.mp h
    by_cases ha : a.1 = m
    · have hnil : t.filter (fun e => decide (e.1 = m)) = [] := by
        rw [List.filter_eq_nil_iff]
        intro b hb
        simp only [decide_eq_true_eq]
        intro hbm
        exact h1 b hb (by rw [ha, hbm])
      simp [List.filter_cons, ha, hnil]
    · rw [List.filter_cons, if_neg (by simp [ha])]
      exact ih h2

/-- C3: over any monotonically non-decreasing sequence of observed scroll
percentages within one page load, each milestone is emitted at most once,
and every emission happens at a point where the observed percentage has
reached or exceeded the milestone. -/
theorem C3_scroll_milestones (ps : List Nat) (h : List.Chain' (· ≤ ·) ps) :
    (∀ m, ((runScroll ps).filter (fun e => e.1 = m)).length ≤ 1) ∧
    (∀ e ∈ runScroll ps, e.1 ≤ e.2) := by
  constructor
  · intro m
    exact pairwise_fst_filter_le _ (runScrollAux_pairwise [] ps) m
  · intro e he
    exact (runScrollAux_emit [] ps e he).1

/-- Witness for C3: the run over percentages `[10, 30, 60, 100]` emits each
of 25, 50, 75, 100 exactly once, at the first observation reaching it. -/
theorem C3_witness :
    List.Chain' (· ≤ ·) [10, 30, 60, 100] ∧
    ((runScroll [10, 30, 60, 100]).filter (fun e => e.1 = 50)).length ≤ 1 ∧
    runScroll [10, 30, 60, 100] = [(25, 30), (50, 60), (75, 100), (100, 100)] :=
  ⟨by norm_num [List.chain'_cons],
   (C3_scroll_milestones [10, 30, 60, 100] (by norm_num [List.chain'_cons])).1 50,
   by rfl⟩

end GEO
